import Mathlib

/-!
Shallow embedding of the UHI MOSAIKS feature-extraction pipeline
(src/main.py): the satellite point sampler extract_satellite_features and
the chunked, cache-backed, retrying batch orchestrator
batch_extract_features_with_cache.

Conventions of the embedding:
* a pandas DataFrame is a header (list of column names) together with a
  list of rows; a cell is Option Int, where none stands for NaN;
* the cache directory is an association list keyed by chunk index;
  reading and writing a CSV artifact is the identity on tables;
* time.sleep is recorded in a list of slept durations, and every call of
  the extraction backend increments a call counter, so that retry and
  cache behaviour is observable in the final state;
* the float coordinates of the source are modelled as Int: none of the
  verified claims depends on fractional values;
* the external services used by the sampler (the STAC catalog search,
  item signing, and the stackstac raster engine) are parameters of a
  SamplerEnv record, and raised Python exceptions are Except.error.
-/

namespace UHI

/-- Decidable equality of Except results, used to evaluate concrete
runs of the embedded functions. -/
instance {ε α : Type} [DecidableEq ε] [DecidableEq α] :
    DecidableEq (Except ε α) := fun a b =>
  match a, b with
  | .ok x, .ok y =>
      if h : x = y then .isTrue (by rw [h])
      else .isFalse (fun hc => h (Except.ok.inj hc))
  | .error x, .error y =>
      if h : x = y then .isTrue (by rw [h])
      else .isFalse (fun hc => h (Except.error.inj hc))
  | .ok _, .error _ => .isFalse (fun hc => Except.noConfusion hc)
  | .error _, .ok _ => .isFalse (fun hc => Except.noConfusion hc)

/-- Model of a pandas DataFrame: column names plus rows of cells; a cell
is Option Int with none standing for NaN. -/
structure DataFrame where
  cols : List String
  rows : List (List (Option Int))
deriving DecidableEq

/-- Model of pd.DataFrame(): the empty frame recorded for a chunk whose
retries were exhausted (main.py line 136). -/
def DataFrame.empty : DataFrame := ⟨[], []⟩

/-- Contents of the cache directory: one artifact per chunk index,
mirroring the files cache_dir/chunk_{idx}.csv. -/
abbrev Cache := List (Nat × DataFrame)

/-- Model of os.path.exists plus pd.read_csv (main.py lines 119-121):
look an artifact up by chunk index. -/
def cacheLookup (idx : Nat) : Cache → Option DataFrame
  | [] => none
  | e :: rest => if e.1 = idx then some e.2 else cacheLookup idx rest

/-- Model of chunk_features.to_csv(cache_path) (main.py line 129):
persist an artifact under a chunk index. -/
def cacheInsert (idx : Nat) (d : DataFrame) (c : Cache) : Cache :=
  (idx, d) :: c

/-- Observable state threaded through the orchestrator: the cache
directory, the number of backend calls made so far, and the list of
durations passed to time.sleep, in order. -/
structure OrchState where
  cache : Cache
  calls : Nat
  sleeps : List Nat
deriving DecidableEq

/-- Arguments of batch_extract_features_with_cache: chunk_size,
max_retries, retry_delay, and the extraction backend (the function
extract_satellite_features with its kwargs already applied). The backend
consumes the (latitude, longitude) rows of a chunk, which is exactly
list(zip(chunk.latitude, chunk.longitude)) at main.py line 124, because a
row of the input table is modelled as its (latitude, longitude) pair. -/
structure OrchConfig where
  chunk_size : Nat
  max_retries : Nat
  retry_delay : Nat
  backend : List (Int × Int) → Except String DataFrame

/-- Model of the retry loop body, main.py lines 126-138, entered with
some attempts remaining after the current one. Each iteration calls the
backend once; on success the result is persisted to the cache and
returned; on failure the loop sleeps retry_delay and retries while
attempts remain, and on the final attempt records pd.DataFrame() without
writing any cache artifact. -/
def retryAttempts (cfg : OrchConfig) (chunkIdx : Nat)
    (locations : List (Int × Int)) :
    Nat → OrchState → DataFrame × OrchState
  | 0, st =>
    match cfg.backend locations with
    | .ok feats =>
        (feats, ⟨cacheInsert chunkIdx feats st.cache, st.calls + 1, st.sleeps⟩)
    | .error _ => (DataFrame.empty, ⟨st.cache, st.calls + 1, st.sleeps⟩)
  | r + 1, st =>
    match cfg.backend locations with
    | .ok feats =>
        (feats, ⟨cacheInsert chunkIdx feats st.cache, st.calls + 1, st.sleeps⟩)
    | .error _ =>
        retryAttempts cfg chunkIdx locations r
          ⟨st.cache, st.calls + 1, st.sleeps ++ [cfg.retry_delay]⟩

/-- Model of the per-chunk body of the orchestrator loop, main.py lines
119-138: a cache hit is loaded directly with no backend call; a cache
miss runs the retry loop, entered at attempt 1 with max_retries - 1
attempts remaining. When max_retries = 0 the Python for-loop body never
runs and the later use of chunk_features raises NameError, modelled as
an error result. -/
def processChunk (cfg : OrchConfig) (chunkIdx : Nat)
    (chunk : List (Int × Int)) (st : OrchState) :
    Except String DataFrame × OrchState :=
  match cacheLookup chunkIdx st.cache with
  | some feats => (.ok feats, st)
  | none =>
      match cfg.max_retries with
      | 0 => (.error ("name chunk_features is not defined"), st)
      | r + 1 =>
          let out := retryAttempts cfg chunkIdx chunk r st
          (.ok out.1, out.2)

/-- Model of range(0, n, step) for step > 0: the multiples of step below
n, that is (List.range (ceil (n / step))).map (fun k => k * step). -/
def pyRange (n step : Nat) : List Nat :=
  (List.range ((n + step - 1) / step)).map (fun k => k * step)

/-- Model of the chunk decomposition of main.py lines 114-116: for each
loop start i in range(0, len(df), chunk_size), the pair of
chunk_idx = i // chunk_size and chunk = df.iloc[i : i + chunk_size]. -/
def chunksOf (df : List (Int × Int)) (c : Nat) : List (Nat × List (Int × Int)) :=
  (pyRange df.length c).map (fun i => (i / c, (df.drop i).take c))

/-- Column union in order of first appearance, as pd.concat aligns the
columns of its inputs. -/
def colsUnion (l : List DataFrame) : List String :=
  l.foldl (fun acc d => d.cols.foldl (fun a c => if c ∈ a then a else a ++ [c]) acc) []

/-- Reindex the rows of a frame to a target column list, filling NaN for
absent columns, as pd.concat does. -/
def DataFrame.reindex (d : DataFrame) (cs : List String) : List (List (Option Int)) :=
  d.rows.map (fun r => cs.map (fun c =>
    match List.findIdx? (fun c2 => c2 == c) d.cols with
    | some j => r.getD j none
    | none => none))

/-- Model of pd.concat(all_features, ignore_index=True) at main.py line
142: raises ValueError on an empty list of objects, otherwise stacks all
rows over the union of the columns. -/
def concatDF : List DataFrame → Except String DataFrame
  | [] => .error ("No objects to concatenate")
  | d :: ds =>
      .ok ⟨colsUnion (d :: ds),
           ((d :: ds).map (fun t => t.reindex (colsUnion (d :: ds)))).flatten⟩

/-- The orchestrator loop over a prepared list of (chunk_idx, chunk)
pairs, threading the state and collecting the per-chunk results in
order; an error from a chunk body (only possible when max_retries = 0)
aborts the loop as an uncaught Python exception would. -/
def batchChunks (cfg : OrchConfig) :
    List (Nat × List (Int × Int)) → OrchState →
    Except String (List DataFrame) × OrchState
  | [], st => (.ok [], st)
  | c :: rest, st =>
      match processChunk cfg c.1 c.2 st with
      | (.error e, st1) => (.error e, st1)
      | (.ok d, st1) =>
          match batchChunks cfg rest st1 with
          | (.ok ds, st2) => (.ok (d :: ds), st2)
          | (.error e, st2) => (.error e, st2)

/-- Model of batch_extract_features_with_cache, main.py lines 102-142:
chunk the input, process every chunk through cache or retry loop in
index order, and concatenate all chunk results. The os.makedirs call is
a no-op on the modelled cache state. -/
def batch_extract_features_with_cache (cfg : OrchConfig)
    (df : List (Int × Int)) (st : OrchState) :
    Except String DataFrame × OrchState :=
  match batchChunks cfg (chunksOf df cfg.chunk_size) st with
  | (.ok ds, st1) => (concatDF ds, st1)
  | (.error e, st1) => (.error e, st1)

/-! The satellite point sampler. -/

/-- The stacked raster produced by stackstac.stack: the size of the time
dimension, the band coordinate labels, the y and x cell-centre
coordinate axes, and the cell values of the first time slice. -/
structure RasterGrid where
  timeSize : Nat
  bandAxis : List String
  yAxis : List Int
  xAxis : List Int
  value : String → Int → Int → Option Int

/-- The external collaborators of extract_satellite_features: the item
list returned by the STAC catalog search (items as opaque ids), the
planetary_computer.sign function, the stackstac stacking engine applied
to the signed items and the requested asset bands, and the coordinate
reprojection gdf.to_crs into the raster reference system applied to a
(lon, lat) geometry. -/
structure SamplerEnv where
  searchItems : List Nat
  sign : Nat → Nat
  stack : List Nat → List String → Except String RasterGrid
  reproject : Int × Int → Int × Int

/-- Nearest label on a coordinate axis (method="nearest" of xarray sel):
the first closest axis value, measured by absolute distance. -/
def nearest (axis : List Int) (q : Int) : Int :=
  match axis with
  | [] => 0
  | a :: rest =>
      rest.foldl (fun best c => if (c - q).natAbs < (best - q).natAbs then c else best) a

/-- Model of main.py lines 61-76: stackstac.stack wrapped in try/except;
any error, including the empty-dimension ValueError raised inside the
try block, is re-raised as a stackstac.stack failed ValueError. -/
def stackChecked (env : SamplerEnv) (signed : List Nat) (bands : List String) :
    Except String RasterGrid :=
  match env.stack signed bands with
  | .error e => .error ("stackstac.stack failed: " ++ e)
  | .ok d =>
      if d.timeSize = 0 ∨ d.bandAxis.length = 0 then
        .error ("stackstac.stack failed: Stacked data has empty dimensions.")
      else .ok d

/-- Model of main.py lines 86-93: the orthogonal selection
data_single_time.sel(x=[...], y=[...], method="nearest") followed by
to_dataframe. Passing plain lists to sel selects the x and the y
dimension independently, so the result ranges over every combination of
a selected y and a selected x, for every band; each long row is
(band, y, x, value). -/
def sampleLong (data : RasterGrid) (coords : List (Int × Int)) :
    List (String × Int × Int × Option Int) :=
  let nxs := coords.map (fun c => nearest data.xAxis c.1)
  let nys := coords.map (fun c => nearest data.yAxis c.2)
  data.bandAxis.flatMap (fun b =>
    nys.flatMap (fun y => nxs.map (fun x => (b, y, x, data.value b y x))))

/-- The (x, y, band) key of each long row, the combination that
df.pivot(index=["x","y"], columns="band") requires to be unique. -/
def pivotKeys (long : List (String × Int × Int × Option Int)) :
    List (Int × Int × String) :=
  long.map (fun r => (r.2.2.1, r.2.1, r.1))

/-- Lexicographic order on (x, y) pairs, the sort order of the pivot
index. -/
def lexXY (a b : Int × Int) : Prop :=
  a.1 < b.1 ∨ (a.1 = b.1 ∧ a.2 ≤ b.2)

instance lexXY.instDecidableRel : DecidableRel lexXY := fun a b => by
  unfold lexXY
  exact inferInstance

/-- Lexicographic comparison of character lists by code point. -/
def charsLE : List Char → List Char → Bool
  | [], _ => true
  | _ :: _, [] => false
  | x :: xs, y :: ys =>
      if x.toNat < y.toNat then true
      else if y.toNat < x.toNat then false
      else charsLE xs ys

/-- Lexicographic order on band names, the sort order of the pivot
columns (ascending code-point order, as pandas sorts column labels). -/
def strLE (a b : String) : Prop := charsLE a.data b.data = true

instance strLE.instDecidableRel : DecidableRel strLE := fun a b => by
  unfold strLE
  exact inferInstance

/-- Model of df.pivot(index=["x","y"], columns="band", values="value")
followed by reset_index(drop=True), main.py line 96: raises ValueError
when some (x, y, band) combination is duplicated; otherwise produces one
row per distinct (x, y) pair and one column per distinct band, both in
ascending sorted order, filling NaN for absent combinations. -/
def pivotTable (long : List (String × Int × Int × Option Int)) :
    Except String DataFrame :=
  if (pivotKeys long).Nodup then
    let xys := List.insertionSort lexXY ((long.map (fun r => (r.2.2.1, r.2.1))).dedup)
    let bs := List.insertionSort strLE ((long.map (fun r => r.1)).dedup)
    .ok ⟨bs, xys.map (fun xy => bs.map (fun b =>
      match long.find? (fun r => r.1 == b && r.2.2.1 == xy.1 && r.2.1 == xy.2) with
      | some r => r.2.2.2
      | none => none))⟩
  else
    .error ("Index contains duplicate entries, cannot reshape")

/-- Model of extract_satellite_features, main.py lines 16-99. Points
arrive as (lat, lon) pairs and are turned into Point(lon, lat)
geometries; a fixed-bbox catalog search with zero matching items raises
ValueError before signing, stacking or sampling; the stacked raster is
checked for empty time or band dimensions; the points are reprojected,
sampled by orthogonal nearest selection on the first time slice, pivoted
to wide form, and the pivot columns are renamed positionally to
band_<name> in the caller-supplied band order (raising when the column
count differs from the requested band count). -/
def extract_satellite_features (env : SamplerEnv)
    (locations : List (Int × Int)) (bandsOpt : Option (List String)) :
    Except String DataFrame :=
  let bands := bandsOpt.getD ["B02", "B03", "B04", "B08"]
  let gdf := locations.map (fun p => (p.2, p.1))
  if env.searchItems.isEmpty then
    .error ("No matching satellite imagery found.")
  else
    match stackChecked env (env.searchItems.map env.sign) bands with
    | .error e => .error e
    | .ok data =>
        let coords := gdf.map env.reproject
        if data.xAxis.isEmpty || data.yAxis.isEmpty then
          .error ("cannot do nearest selection on an empty coordinate axis")
        else
          match pivotTable (sampleLong data coords) with
          | .error e => .error e
          | .ok piv =>
              if piv.cols.length = bands.length then
                .ok ⟨bands.map (fun b => "band_" ++ b), piv.rows⟩
              else
                .error ("Length mismatch: columns do not match the requested bands")

/-- The reprojected raster-space position of one (lat, lon) input point:
the Point(lon, lat) geometry pushed through gdf.to_crs. -/
def projectPoint (env : SamplerEnv) (p : Int × Int) : Int × Int :=
  env.reproject (p.2, p.1)

/-- Row count contributed by one chunk extraction outcome: the rows of a
successful table, zero for a permanently failed chunk. -/
def exceptRowCount : Except String DataFrame → Nat
  | .ok t => t.rows.length
  | .error _ => 0

/-! Lemmas about the retry loop and the per-chunk body. -/

theorem retryAttempts_fail (cfg : OrchConfig) (chunkIdx : Nat)
    (locs : List (Int × Int)) (e : String) (hf : cfg.backend locs = .error e) :
    ∀ (r : Nat) (st : OrchState),
      retryAttempts cfg chunkIdx locs r st =
        (DataFrame.empty,
         ⟨st.cache, st.calls + (r + 1),
          st.sleeps ++ List.replicate r cfg.retry_delay⟩) := by
  intro r
  induction r with
  | zero =>
      intro st
      unfold retryAttempts
      rw [hf]
      simp
  | succ n ih =>
      intro st
      unfold retryAttempts
      rw [hf]
      dsimp only
      rw [ih]
      simp only [OrchState.mk.injEq, Prod.mk.injEq, List.append_assoc,
        List.singleton_append, ← List.replicate_succ, true_and, and_true]
      omega

theorem retryAttempts_ok (cfg : OrchConfig) (chunkIdx : Nat)
    (locs : List (Int × Int)) (t : DataFrame) (hok : cfg.backend locs = .ok t)
    (r : Nat) (st : OrchState) :
    retryAttempts cfg chunkIdx locs r st =
      (t, ⟨cacheInsert chunkIdx t st.cache, st.calls + 1, st.sleeps⟩) := by
  cases r with
  | zero => unfold retryAttempts; rw [hok]
  | succ n => unfold retryAttempts; rw [hok]

theorem processChunk_hit (cfg : OrchConfig) (idx : Nat)
    (chunk : List (Int × Int)) (st : OrchState) (d : DataFrame)
    (h : cacheLookup idx st.cache = some d) :
    processChunk cfg idx chunk st = (.ok d, st) := by
  unfold processChunk
  rw [h]

theorem processChunk_miss_fail (cfg : OrchConfig) (idx : Nat)
    (chunk : List (Int × Int)) (st : OrchState) (e : String)
    (hm : cacheLookup idx st.cache = none) (hf : cfg.backend chunk = .error e)
    (hr : 1 ≤ cfg.max_retries) :
    processChunk cfg idx chunk st =
      (.ok DataFrame.empty,
       ⟨st.cache, st.calls + cfg.max_retries,
        st.sleeps ++ List.replicate (cfg.max_retries - 1) cfg.retry_delay⟩) := by
  obtain ⟨r, hr1⟩ : ∃ r, cfg.max_retries = r + 1 := ⟨cfg.max_retries - 1, by omega⟩
  unfold processChunk
  rw [hm, hr1]
  simp only []
  rw [retryAttempts_fail cfg idx chunk e hf r st]
  simp

theorem processChunk_miss_ok (cfg : OrchConfig) (idx : Nat)
    (chunk : List (Int × Int)) (st : OrchState) (t : DataFrame)
    (hm : cacheLookup idx st.cache = none) (hok : cfg.backend chunk = .ok t)
    (hr : 1 ≤ cfg.max_retries) :
    processChunk cfg idx chunk st =
      (.ok t, ⟨cacheInsert idx t st.cache, st.calls + 1, st.sleeps⟩) := by
  obtain ⟨r, hr1⟩ : ∃ r, cfg.max_retries = r + 1 := ⟨cfg.max_retries - 1, by omega⟩
  unfold processChunk
  rw [hm, hr1]
  simp only []
  rw [retryAttempts_ok cfg idx chunk t hok r st]

/-! Lemmas about the orchestrator loop over a prepared chunk list. -/

theorem batchChunks_all_hit (cfg : OrchConfig) :
    ∀ (L : List (Nat × List (Int × Int))) (st : OrchState),
      (∀ p ∈ L, (cacheLookup p.1 st.cache).isSome = true) →
      batchChunks cfg L st =
        (.ok (L.map (fun p => (cacheLookup p.1 st.cache).getD DataFrame.empty)), st) := by
  intro L
  induction L with
  | nil => intro st _; rfl
  | cons c rest ih =>
      intro st hall
      have hc := hall c (List.mem_cons_self c rest)
      obtain ⟨d, hd⟩ := Option.isSome_iff_exists.mp hc
      unfold batchChunks
      rw [processChunk_hit cfg c.1 c.2 st d hd]
      dsimp only
      rw [ih st (fun p hp => hall p (List.mem_cons_of_mem c hp))]
      simp [hd]

theorem batchChunks_all_miss (cfg : OrchConfig) (hr : 1 ≤ cfg.max_retries) :
    ∀ (L : List (Nat × List (Int × Int))) (st : OrchState),
      (∀ p ∈ L, cacheLookup p.1 st.cache = none) →
      (L.map Prod.fst).Nodup →
      ∃ ds st1, batchChunks cfg L st = (.ok ds, st1) ∧
        ds.map (fun d => d.rows.length) =
          L.map (fun p => exceptRowCount (cfg.backend p.2)) := by
  intro L
  induction L with
  | nil => intro st _ _; exact ⟨[], st, rfl, rfl⟩
  | cons c rest ih =>
      intro st hall hnd
      have hmiss := hall c (List.mem_cons_self c rest)
      have hnd1 : (c.1 :: rest.map Prod.fst).Nodup := by simpa using hnd
      have hnotmem : c.1 ∉ rest.map Prod.fst := (List.nodup_cons.mp hnd1).1
      have hndtail : (rest.map Prod.fst).Nodup := (List.nodup_cons.mp hnd1).2
      cases hb : cfg.backend c.2 with
      | ok t =>
          have htail : ∀ p ∈ rest,
              cacheLookup p.1 (⟨cacheInsert c.1 t st.cache, st.calls + 1, st.sleeps⟩ : OrchState).cache = none := by
            intro p hp
            have hne : ¬ c.1 = p.1 := by
              intro hEq
              exact hnotmem (hEq ▸ List.mem_map_of_mem Prod.fst hp)
            simp only [cacheInsert, cacheLookup, hne, if_false]
            exact hall p (List.mem_cons_of_mem c hp)
          obtain ⟨ds, st2, hds, hlen⟩ :=
            ih ⟨cacheInsert c.1 t st.cache, st.calls + 1, st.sleeps⟩ htail hndtail
          refine ⟨t :: ds, st2, ?_, ?_⟩
          · unfold batchChunks
            rw [processChunk_miss_ok cfg c.1 c.2 st t hmiss hb hr]
            dsimp only
            rw [hds]
          · simp only [List.map_cons, hlen, exceptRowCount, hb]
      | error e =>
          have htail : ∀ p ∈ rest,
              cacheLookup p.1
                (⟨st.cache, st.calls + cfg.max_retries,
                  st.sleeps ++ List.replicate (cfg.max_retries - 1) cfg.retry_delay⟩ : OrchState).cache = none := by
            intro p hp
            exact hall p (List.mem_cons_of_mem c hp)
          obtain ⟨ds, st2, hds, hlen⟩ :=
            ih ⟨st.cache, st.calls + cfg.max_retries,
                st.sleeps ++ List.replicate (cfg.max_retries - 1) cfg.retry_delay⟩ htail hndtail
          refine ⟨DataFrame.empty :: ds, st2, ?_, ?_⟩
          · unfold batchChunks
            rw [processChunk_miss_fail cfg c.1 c.2 st e hmiss hb hr]
            dsimp only
            rw [hds]
          · simp only [List.map_cons, hlen, exceptRowCount, hb]
            rfl

/-! Lemmas about the chunk decomposition. -/

theorem chunksOf_length (df : List (Int × Int)) (c : Nat) :
    (chunksOf df c).length = (df.length + c - 1) / c := by
  simp [chunksOf, pyRange]

theorem chunksOf_map_fst (df : List (Int × Int)) (c : Nat) (hc : 0 < c) :
    (chunksOf df c).map Prod.fst = List.range ((df.length + c - 1) / c) := by
  unfold chunksOf pyRange
  have hdiv : ∀ k : Nat, k * c / c = k := fun k => Nat.mul_div_cancel k hc
  simp [List.map_map, Function.comp_def, hdiv]

theorem chunksOf_getElem (df : List (Int × Int)) (c : Nat) (hc : 0 < c)
    (k : Nat) (h : k < (chunksOf df c).length) :
    (chunksOf df c)[k] = (k, (df.drop (k * c)).take c) := by
  unfold chunksOf pyRange at h ⊢
  simp only [List.getElem_map, List.getElem_range, Nat.mul_div_cancel _ hc]

theorem range_take_flatten (df : List (Int × Int)) (c : Nat) :
    ∀ m : Nat,
      ((List.range m).map (fun k => (df.drop (k * c)).take c)).flatten =
        df.take (m * c) := by
  intro m
  induction m with
  | zero => simp
  | succ n ih =>
      rw [List.range_succ, List.map_append, List.flatten_append]
      simp only [List.map_cons, List.map_nil, List.flatten_cons, List.flatten_nil,
        List.append_nil]
      rw [ih, Nat.succ_mul, List.take_add]

theorem ceil_mul_le (n c : Nat) (hc : 0 < c) : n ≤ ((n + c - 1) / c) * c := by
  have h1 := Nat.div_add_mod (n + c - 1) c
  have h2 : (n + c - 1) % c < c := Nat.mod_lt _ hc
  rw [Nat.mul_comm]
  omega

theorem chunksOf_flatten (df : List (Int × Int)) (c : Nat) (hc : 0 < c) :
    ((chunksOf df c).map Prod.snd).flatten = df := by
  unfold chunksOf pyRange
  rw [List.map_map, List.map_map]
  dsimp only [Function.comp_def]
  rw [range_take_flatten]
  exact List.take_of_length_le (ceil_mul_le df.length c hc)

theorem chunksOf_ne_nil (df : List (Int × Int)) (c : Nat) (hc : 0 < c)
    (hdf : df ≠ []) : chunksOf df c ≠ [] := by
  intro hnil
  have hlen : (chunksOf df c).length = 0 := hnil ▸ rfl
  rw [chunksOf_length] at hlen
  have h1 := Nat.div_add_mod (df.length + c - 1) c
  rw [hlen, Nat.mul_zero, Nat.zero_add] at h1
  have h2 : (df.length + c - 1) % c < c := Nat.mod_lt _ hc
  have hpos : 0 < df.length := List.length_pos.mpr hdf
  omega

theorem chunksOf_size_middle (df : List (Int × Int)) (c : Nat) (hc : 0 < c)
    (k : Nat) (h : k < (chunksOf df c).length)
    (hlast : k + 1 < (chunksOf df c).length) :
    ((chunksOf df c)[k]).2.length = c := by
  rw [chunksOf_getElem df c hc k h]
  rw [chunksOf_length] at hlast
  simp only [List.length_take, List.length_drop]
  have hle : (k + 2) * c ≤ ((df.length + c - 1) / c) * c :=
    Nat.mul_le_mul_right c (by omega)
  rw [Nat.add_mul] at hle
  have hub : ((df.length + c - 1) / c) * c ≤ df.length + c - 1 :=
    Nat.div_mul_le_self _ _
  have hlb := ceil_mul_le df.length c hc
  omega

theorem ceil_div_eq (n c : Nat) (hc : 0 < c) (hn : 0 < n) :
    (n + c - 1) / c = if n % c = 0 then n / c else n / c + 1 := by
  have h3 := Nat.div_add_mod n c
  have h4 : n % c < c := Nat.mod_lt _ hc
  by_cases hr : n % c = 0
  · rw [if_pos hr]
    have he : n + c - 1 = c - 1 + c * (n / c) := by omega
    rw [he, Nat.add_mul_div_left _ _ hc, Nat.div_eq_of_lt (by omega), Nat.zero_add]
  · rw [if_neg hr]
    have he : n + c - 1 = (n % c - 1) + c * (n / c + 1) := by
      rw [Nat.mul_succ]
      omega
    rw [he, Nat.add_mul_div_left _ _ hc, Nat.div_eq_of_lt (by omega), Nat.zero_add]

theorem chunksOf_size_last (df : List (Int × Int)) (c : Nat) (hc : 0 < c)
    (k : Nat) (h : k < (chunksOf df c).length)
    (hlast : k + 1 = (chunksOf df c).length) :
    ((chunksOf df c)[k]).2.length =
      if df.length % c = 0 then c else df.length % c := by
  rw [chunksOf_getElem df c hc k h]
  rw [chunksOf_length] at hlast
  simp only [List.length_take, List.length_drop]
  have hN : 0 < df.length := by
    by_contra hN0
    have hz : df.length = 0 := by omega
    rw [hz] at hlast
    have : (0 + c - 1) / c = 0 := Nat.div_eq_of_lt (by omega)
    omega
  rw [ceil_div_eq df.length c hc hN] at hlast
  have h3 := Nat.div_add_mod df.length c
  have h4 : df.length % c < c := Nat.mod_lt _ hc
  by_cases hr : df.length % c = 0
  · rw [if_pos hr] at hlast ⊢
    have hs : 1 ≤ df.length / c := by
      by_contra hs0
      have hz : df.length / c = 0 := by omega
      rw [hz, Nat.mul_zero] at h3
      omega
    have hk : k = df.length / c - 1 := by omega
    have hkc : k * c = c * (df.length / c) - c := by
      rw [hk, Nat.sub_mul, one_mul, Nat.mul_comm]
    have hYc : c ≤ c * (df.length / c) := by
      calc c = c * 1 := by rw [Nat.mul_one]
        _ ≤ c * (df.length / c) := Nat.mul_le_mul_left c hs
    omega
  · rw [if_neg hr] at hlast ⊢
    have hk : k = df.length / c := by omega
    have hkc : k * c = c * (df.length / c) := by rw [hk, Nat.mul_comm]
    omega

/-! Lemma about the final concatenation. -/

theorem concatDF_rows_length (d : DataFrame) (ds : List DataFrame) :
    ∃ out, concatDF (d :: ds) = .ok out ∧
      out.rows.length = ((d :: ds).map (fun t => t.rows.length)).sum := by
  refine ⟨_, rfl, ?_⟩
  have hre : ∀ (t : DataFrame) (cs : List String),
      (t.reindex cs).length = t.rows.length := by
    intro t cs
    simp [DataFrame.reindex]
  simp [List.length_flatten, List.map_map, Function.comp_def, hre]

/-! Concrete fixtures used by the witnesses and counterexamples. -/

/-- A cached artifact with two rows. -/
def wD0 : DataFrame := ⟨["f"], [[some 1], [some 2]]⟩

/-- A cached artifact with one row. -/
def wD1 : DataFrame := ⟨["f"], [[some 3]]⟩

/-- A two-row table returned by a succeeding backend. -/
def wDA : DataFrame := ⟨["a"], [[some 1], [some 2]]⟩

/-- Three input rows, chunk size two: chunks of sizes two and one. -/
def wDf : List (Int × Int) := [(1, 2), (3, 4), (5, 6)]

/-- Five input rows for the chunking witness. -/
def wDf5 : List (Int × Int) := [(1, 1), (2, 2), (3, 3), (4, 4), (5, 5)]

/-- A single input row. -/
def wDfOne : List (Int × Int) := [(0, 0)]

/-- Orchestrator arguments with an always-failing backend. -/
def wCfgHit : OrchConfig := ⟨2, 3, 10, fun _ => .error ("network down")⟩

/-- Orchestrator arguments whose backend succeeds exactly on two-row
chunks and fails on the rest. -/
def wCfgMix : OrchConfig :=
  ⟨2, 2, 5, fun l => if l.length = 2 then .ok wDA else .error ("boom")⟩

/-- Orchestrator arguments with an always-failing backend and two
attempts. -/
def wCfgFail : OrchConfig := ⟨500, 2, 1, fun _ => .error ("service down")⟩

/-- A cache holding artifacts for chunk indices zero and one. -/
def wStHit : OrchState := ⟨[(0, wD0), (1, wD1)], 0, []⟩

/-- The empty starting state. -/
def wStNil : OrchState := ⟨[], 0, []⟩

/-! Claim theorems for the orchestrator. -/

/-- C1: for every input table and every pre-populated cache (an artifact
exists for every chunk index produced by the chunk decomposition),
batch_extract_features_with_cache leaves the whole state unchanged — in
particular the backend-call counter, so zero backend calls are
performed — and running it a second time over the resulting state
returns the identical output and state of the first run. -/
theorem C1_full_cache_idempotent_zero_calls (cfg : OrchConfig)
    (df : List (Int × Int)) (st : OrchState)
    (hall : ∀ p ∈ chunksOf df cfg.chunk_size,
      (cacheLookup p.1 st.cache).isSome = true) :
    (batch_extract_features_with_cache cfg df st).2 = st ∧
    ((batch_extract_features_with_cache cfg df st).2).calls = st.calls ∧
    batch_extract_features_with_cache cfg df
        ((batch_extract_features_with_cache cfg df st).2) =
      batch_extract_features_with_cache cfg df st := by
  have hb := batchChunks_all_hit cfg (chunksOf df cfg.chunk_size) st hall
  have hstate : (batch_extract_features_with_cache cfg df st).2 = st := by
    unfold batch_extract_features_with_cache
    rw [hb]
  exact ⟨hstate, by rw [hstate], by rw [hstate]⟩

theorem C1_full_cache_idempotent_zero_calls_witness :
    (∀ p ∈ chunksOf wDf wCfgHit.chunk_size,
      (cacheLookup p.1 wStHit.cache).isSome = true) ∧
    ((batch_extract_features_with_cache wCfgHit wDf wStHit).2 = wStHit ∧
     ((batch_extract_features_with_cache wCfgHit wDf wStHit).2).calls = wStHit.calls ∧
     batch_extract_features_with_cache wCfgHit wDf
         ((batch_extract_features_with_cache wCfgHit wDf wStHit).2) =
       batch_extract_features_with_cache wCfgHit wDf wStHit) :=
  ⟨by decide, C1_full_cache_idempotent_zero_calls wCfgHit wDf wStHit (by decide)⟩

/-- C3: a chunk whose artifact is absent and whose backend raises on
every call makes the orchestrator call the backend exactly max_retries
times (the call counter grows by max_retries), sleep retry_delay exactly
max_retries - 1 times, and record an empty zero-row result for the
chunk, without writing any cache artifact. -/
theorem C3_retry_exhaustion_counts (cfg : OrchConfig) (idx : Nat)
    (chunk : List (Int × Int)) (st : OrchState) (e : String)
    (hmiss : cacheLookup idx st.cache = none)
    (hfail : cfg.backend chunk = .error e)
    (hr : 1 ≤ cfg.max_retries) :
    processChunk cfg idx chunk st =
      (.ok DataFrame.empty,
       ⟨st.cache, st.calls + cfg.max_retries,
        st.sleeps ++ List.replicate (cfg.max_retries - 1) cfg.retry_delay⟩) :=
  processChunk_miss_fail cfg idx chunk st e hmiss hfail hr

theorem C3_retry_exhaustion_counts_witness :
    (cacheLookup 0 wStNil.cache = none ∧
     wCfgHit.backend [(1, 2)] = .error ("network down") ∧
     1 ≤ wCfgHit.max_retries) ∧
    processChunk wCfgHit 0 [(1, 2)] wStNil =
      (.ok DataFrame.empty,
       ⟨wStNil.cache, wStNil.calls + wCfgHit.max_retries,
        wStNil.sleeps ++ List.replicate (wCfgHit.max_retries - 1) wCfgHit.retry_delay⟩) :=
  ⟨⟨rfl, rfl, by decide⟩,
   C3_retry_exhaustion_counts wCfgHit 0 [(1, 2)] wStNil ("network down")
     rfl rfl (by decide)⟩

/-- C4: when every chunk starts uncached, the batch never raises — it
returns an ok table — and its row count is the sum over all chunks of
the rows of the succeeding extractions, a permanently failing chunk
contributing zero rows and aborting nothing. -/
theorem C4_partial_failure_tolerated (cfg : OrchConfig)
    (df : List (Int × Int)) (st : OrchState)
    (hc : 0 < cfg.chunk_size) (hr : 1 ≤ cfg.max_retries) (hdf : df ≠ [])
    (hmiss : ∀ p ∈ chunksOf df cfg.chunk_size, cacheLookup p.1 st.cache = none) :
    ∃ out st1, batch_extract_features_with_cache cfg df st = (.ok out, st1) ∧
      out.rows.length =
        ((chunksOf df cfg.chunk_size).map
          (fun p => exceptRowCount (cfg.backend p.2))).sum := by
  have hnd : ((chunksOf df cfg.chunk_size).map Prod.fst).Nodup := by
    rw [chunksOf_map_fst df cfg.chunk_size hc]
    exact List.nodup_range _
  obtain ⟨ds, st1, hds, hlen⟩ :=
    batchChunks_all_miss cfg hr (chunksOf df cfg.chunk_size) st hmiss hnd
  have hchunks := chunksOf_ne_nil df cfg.chunk_size hc hdf
  have hdslen : ds.length = (chunksOf df cfg.chunk_size).length := by
    have hmap := congrArg List.length hlen
    simpa using hmap
  cases ds with
  | nil =>
      exfalso
      apply hchunks
      have hz : (chunksOf df cfg.chunk_size).length = 0 := by simpa using hdslen.symm
      exact List.length_eq_zero.mp hz
  | cons d ds2 =>
      obtain ⟨out, hout, houtlen⟩ := concatDF_rows_length d ds2
      refine ⟨out, st1, ?_, ?_⟩
      · unfold batch_extract_features_with_cache
        rw [hds]
        dsimp only
        rw [hout]
      · rw [houtlen, hlen]

theorem C4_partial_failure_tolerated_witness :
    (0 < wCfgMix.chunk_size ∧ 1 ≤ wCfgMix.max_retries ∧ wDf ≠ [] ∧
     (∀ p ∈ chunksOf wDf wCfgMix.chunk_size, cacheLookup p.1 wStNil.cache = none)) ∧
    (∃ out st1, batch_extract_features_with_cache wCfgMix wDf wStNil = (.ok out, st1) ∧
      out.rows.length =
        ((chunksOf wDf wCfgMix.chunk_size).map
          (fun p => exceptRowCount (wCfgMix.backend p.2))).sum) :=
  ⟨⟨by decide, by decide, by decide, by decide⟩,
   C4_partial_failure_tolerated wCfgMix wDf wStNil
     (by decide) (by decide) (by decide) (by decide)⟩

/-- C5: for an input of N rows and chunk size C > 0 the orchestrator
produces ceil (N / C) contiguous chunks whose concatenation is the
input; the chunk in position k carries chunk index k and the rows from
k * C on; every chunk but the last has exactly C rows and the last has
N mod C rows, or C when N mod C = 0. -/
theorem C5_chunk_partition (df : List (Int × Int)) (c : Nat) (hc : 0 < c) :
    (chunksOf df c).length = (df.length + c - 1) / c ∧
    (chunksOf df c).map Prod.fst = List.range ((df.length + c - 1) / c) ∧
    ((chunksOf df c).map Prod.snd).flatten = df ∧
    (∀ k, ∀ h : k < (chunksOf df c).length,
      (chunksOf df c)[k] = (k, (df.drop (k * c)).take c) ∧
      (k + 1 < (chunksOf df c).length → ((chunksOf df c)[k]).2.length = c) ∧
      (k + 1 = (chunksOf df c).length →
        ((chunksOf df c)[k]).2.length =
          if df.length % c = 0 then c else df.length % c)) :=
  ⟨chunksOf_length df c,
   chunksOf_map_fst df c hc,
   chunksOf_flatten df c hc,
   fun k h =>
     ⟨chunksOf_getElem df c hc k h,
      fun h2 => chunksOf_size_middle df c hc k h h2,
      fun h2 => chunksOf_size_last df c hc k h h2⟩⟩

theorem C5_chunk_partition_witness :
    0 < 2 ∧
    chunksOf wDf5 2 = [(0, [(1, 1), (2, 2)]), (1, [(3, 3), (4, 4)]), (2, [(5, 5)])] ∧
    (chunksOf wDf5 2).length = (wDf5.length + 2 - 1) / 2 :=
  ⟨by decide, by decide, (C5_chunk_partition wDf5 2 (by decide)).1⟩

/-- C8 amended: a processed chunk that was not already cached receives
exactly one cache artifact when its extraction succeeds, namely the
insertion of its result under its index; when its retries are exhausted
no artifact is written and the chunk index is still absent from the
cache. -/
theorem C8_cache_write_only_on_success (cfg : OrchConfig) (idx : Nat)
    (chunk : List (Int × Int)) (st : OrchState)
    (hmiss : cacheLookup idx st.cache = none) (hr : 1 ≤ cfg.max_retries) :
    (∀ t, cfg.backend chunk = .ok t →
      (processChunk cfg idx chunk st).2.cache = cacheInsert idx t st.cache) ∧
    (∀ e, cfg.backend chunk = .error e →
      (processChunk cfg idx chunk st).2.cache = st.cache ∧
      cacheLookup idx (processChunk cfg idx chunk st).2.cache = none) := by
  constructor
  · intro t hok
    rw [processChunk_miss_ok cfg idx chunk st t hmiss hok hr]
  · intro e herr
    rw [processChunk_miss_fail cfg idx chunk st e hmiss herr hr]
    exact ⟨rfl, hmiss⟩

theorem C8_cache_write_only_on_success_witness :
    (cacheLookup 0 wStNil.cache = none ∧ 1 ≤ wCfgFail.max_retries) ∧
    ((∀ t, wCfgFail.backend wDfOne = .ok t →
      (processChunk wCfgFail 0 wDfOne wStNil).2.cache = cacheInsert 0 t wStNil.cache) ∧
     (∀ e, wCfgFail.backend wDfOne = .error e →
      (processChunk wCfgFail 0 wDfOne wStNil).2.cache = wStNil.cache ∧
      cacheLookup 0 (processChunk wCfgFail 0 wDfOne wStNil).2.cache = none)) :=
  ⟨⟨rfl, by decide⟩,
   C8_cache_write_only_on_success wCfgFail 0 wDfOne wStNil rfl (by decide)⟩

/-- C8 counterexample: with an always-failing backend and an initially
empty cache, after the single chunk exhausts its retries (the call
counter equals max_retries = 2) no cache artifact exists for chunk
index 0, refuting the claim that an artifact is written when retries
are exhausted. -/
theorem C8_no_artifact_after_exhaustion_counterexample :
    cacheLookup 0 ((batch_extract_features_with_cache wCfgFail wDfOne wStNil).2).cache = none ∧
    ((batch_extract_features_with_cache wCfgFail wDfOne wStNil).2).calls =
      wCfgFail.max_retries := by
  constructor
  · decide
  · decide

/-- C10: on an input table with zero rows the orchestrator reaches
pd.concat with an empty list of chunk results and raises its ValueError
instead of returning an empty table, whatever the configuration and
starting state. -/
theorem C10_empty_input_concat_error (cfg : OrchConfig) (st : OrchState) :
    batch_extract_features_with_cache cfg [] st =
      (.error ("No objects to concatenate"), st) := by
  have hnil : chunksOf [] cfg.chunk_size = [] := by
    unfold chunksOf pyRange
    have hz : (cfg.chunk_size - 1) / cfg.chunk_size = 0 := by
      rcases Nat.eq_zero_or_pos cfg.chunk_size with h0 | hp
      · rw [h0]
      · exact Nat.div_eq_of_lt (by omega)
    simp [hz]
  unfold batch_extract_features_with_cache
  rw [hnil]
  rfl

/-! Sampler fixtures. -/

/-- A raster with one time step, one band, and a single cell. -/
def wGridOne : RasterGrid := ⟨1, ["B02"], [0], [0], fun _ _ _ => some 7⟩

/-- A raster with one time step, one band, and cell centres at 0 and 10
on both axes. -/
def wGrid2 : RasterGrid := ⟨1, ["B02"], [0, 10], [0, 10], fun _ _ _ => some 7⟩

/-- A raster whose internal band order is reversed relative to the
request. -/
def wGridRev : RasterGrid := ⟨1, ["B03", "B02"], [0], [0], fun _ _ _ => some 1⟩

/-- An environment whose catalog search finds nothing. -/
def wEnvEmpty : SamplerEnv :=
  ⟨[], fun i => i, fun _ _ => .error ("stack must not run"), fun p => p⟩

/-- An environment over the two-by-two raster, identity reprojection. -/
def wEnvGrid : SamplerEnv := ⟨[0], fun i => i, fun _ _ => .ok wGrid2, fun p => p⟩

/-- An environment over the single-cell raster. -/
def wEnvOneCell : SamplerEnv := ⟨[0], fun i => i, fun _ _ => .ok wGridOne, fun p => p⟩

/-- An environment whose raster lists the bands in reversed order. -/
def wEnvRev : SamplerEnv := ⟨[0], fun i => i, fun _ _ => .ok wGridRev, fun p => p⟩

/-- Two points whose nearest cells are the distinct cells (0, 0) and
(10, 10). -/
def wLocsTwo : List (Int × Int) := [(0, 0), (10, 10)]

/-- Two distinct points that share the single nearest cell (0, 0). -/
def wLocsSame : List (Int × Int) := [(0, 0), (5, 5)]

/-- The sampler output of the reversed-band witness run. -/
def wDfRevOut : DataFrame := ⟨["band_B02", "band_B03"], [[some 1, some 1]]⟩

/-! Claim theorems for the sampler. -/

/-- C7: a catalog search returning zero items makes
extract_satellite_features raise the no-imagery ValueError for every
environment, input and band request — before signing, stacking or
sampling, since the result does not depend on the stack, sign or
reprojection components — and an orchestrator using this sampler as its
backend treats the error as a retryable failure: an uncached chunk runs
exactly max_retries attempts and records an empty result. -/
theorem C7_no_imagery_error_propagates (env : SamplerEnv)
    (locs : List (Int × Int)) (bandsOpt : Option (List String))
    (hempty : env.searchItems = []) :
    extract_satellite_features env locs bandsOpt =
      .error ("No matching satellite imagery found.") ∧
    (∀ (cfg : OrchConfig) (idx : Nat) (chunk : List (Int × Int)) (st : OrchState),
      cfg.backend = (fun l => extract_satellite_features env l bandsOpt) →
      cacheLookup idx st.cache = none →
      1 ≤ cfg.max_retries →
      processChunk cfg idx chunk st =
        (.ok DataFrame.empty,
         ⟨st.cache, st.calls + cfg.max_retries,
          st.sleeps ++ List.replicate (cfg.max_retries - 1) cfg.retry_delay⟩)) := by
  have herr : ∀ l, extract_satellite_features env l bandsOpt =
      .error ("No matching satellite imagery found.") := by
    intro l
    simp [extract_satellite_features, hempty]
  refine ⟨herr locs, ?_⟩
  intro cfg idx chunk st hbk hmiss hr
  refine processChunk_miss_fail cfg idx chunk st
    ("No matching satellite imagery found.") hmiss ?_ hr
  rw [hbk]
  exact herr chunk

theorem C7_no_imagery_error_propagates_witness :
    (wEnvEmpty.searchItems = []) ∧
    (extract_satellite_features wEnvEmpty wDfOne none =
      .error ("No matching satellite imagery found.") ∧
    (∀ (cfg : OrchConfig) (idx : Nat) (chunk : List (Int × Int)) (st : OrchState),
      cfg.backend = (fun l => extract_satellite_features wEnvEmpty l none) →
      cacheLookup idx st.cache = none →
      1 ≤ cfg.max_retries →
      processChunk cfg idx chunk st =
        (.ok DataFrame.empty,
         ⟨st.cache, st.calls + cfg.max_retries,
          st.sleeps ++ List.replicate (cfg.max_retries - 1) cfg.retry_delay⟩))) :=
  ⟨rfl, C7_no_imagery_error_propagates wEnvEmpty wDfOne none rfl⟩

/-- C9: whenever extract_satellite_features returns a table for a
caller-supplied band list, the column names of that table are exactly
band_<name> for the requested bands in the caller-supplied order,
independently of the internal band order of the raster backend: the
renaming is positional over the pivot output and any mismatch raises
instead of returning. -/
theorem C9_band_column_names (env : SamplerEnv) (locs : List (Int × Int))
    (bands : List String) (out : DataFrame)
    (hok : extract_satellite_features env locs (some bands) = .ok out) :
    out.cols = bands.map (fun b => "band_" ++ b) := by
  unfold extract_satellite_features at hok
  simp only [Option.getD_some] at hok
  split at hok
  · simp at hok
  · split at hok
    · simp at hok
    · split at hok
      · simp at hok
      · split at hok
        · simp at hok
        · split at hok
          · simp only [Except.ok.injEq] at hok
            rw [← hok]
          · simp at hok

theorem C9_band_column_names_witness :
    (extract_satellite_features wEnvRev wDfOne (some ["B02", "B03"]) = .ok wDfRevOut) ∧
    wDfRevOut.cols = ["B02", "B03"].map (fun b => "band_" ++ b) :=
  ⟨by decide, C9_band_column_names wEnvRev wDfOne ["B02", "B03"] wDfRevOut (by decide)⟩

/-- C2: evaluation of the sampler at two input points whose nearest
cells are the distinct cells (0, 0) and (10, 10): because sel with plain
coordinate lists selects the x and y dimensions orthogonally and the
pivot groups by the selected coordinates, the run returns the full
two-by-two grid — four rows for two input points — refuting
one-row-per-point even though the comment above the pivot states rows
should be the points. -/
theorem C2_grid_blowup_eval :
    wLocsTwo.length = 2 ∧
    extract_satellite_features wEnvGrid wLocsTwo (some ["B02"]) =
      .ok ⟨["band_B02"], [[some 7], [some 7], [some 7], [some 7]]⟩ :=
  ⟨rfl, rfl⟩

/-- A pivot whose (x, y, band) keys contain a duplicate raises the
pandas reshape error. -/
theorem pivotTable_dup (long : List (String × Int × Int × Option Int))
    (h : ¬ (pivotKeys long).Nodup) :
    pivotTable long = .error ("Index contains duplicate entries, cannot reshape") := by
  unfold pivotTable
  rw [if_neg h]

/-- The pivot keys of a sampling run: one (x, y, band) triple for every
band, selected y and selected x combination. -/
theorem pivotKeys_sampleLong (data : RasterGrid) (coords : List (Int × Int)) :
    pivotKeys (sampleLong data coords) =
      data.bandAxis.flatMap (fun b =>
        (coords.map (fun c => nearest data.yAxis c.2)).flatMap (fun y =>
          (coords.map (fun c => nearest data.xAxis c.1)).map (fun x => (x, y, b)))) := by
  unfold pivotKeys sampleLong
  simp [List.map_flatMap, List.map_map, Function.comp_def]

/-- Two positions with the same selected y coordinate duplicate a pivot
key, because every y block ranges over the same selected x list. -/
theorem sampleLong_keys_not_nodup (data : RasterGrid) (coords : List (Int × Int))
    (hband : data.bandAxis ≠ []) (hpos : 0 < coords.length)
    (i j : Nat) (hi : i < coords.length) (hj : j < coords.length) (hij : i ≠ j)
    (hye : nearest data.yAxis (coords[i]).2 = nearest data.yAxis (coords[j]).2) :
    ¬ (pivotKeys (sampleLong data coords)).Nodup := by
  intro hnd
  rw [pivotKeys_sampleLong] at hnd
  obtain ⟨b0, bs, hb⟩ : ∃ b0 bs, data.bandAxis = b0 :: bs := by
    cases hbb : data.bandAxis with
    | nil => exact absurd hbb hband
    | cons b0 bs => exact ⟨b0, bs, rfl⟩
  rw [hb, List.flatMap_cons] at hnd
  have hS : ((coords.map (fun c => nearest data.yAxis c.2)).flatMap (fun y =>
      (coords.map (fun c => nearest data.xAxis c.1)).map (fun x => (x, y, b0)))).Nodup :=
    List.Nodup.sublist (List.sublist_append_left _ _) hnd
  have hpair := (List.nodup_flatMap.mp hS).2
  rw [List.pairwise_iff_get] at hpair
  have hlny : (coords.map (fun c => nearest data.yAxis c.2)).length = coords.length :=
    List.length_map _ _
  have hlnx : (coords.map (fun c => nearest data.xAxis c.1)).length = coords.length :=
    List.length_map _ _
  -- any two positions with equal selected y have overlapping blocks
  have key : ∀ (a b : Nat) (ha : a < coords.length) (hb2 : b < coords.length),
      a < b →
      (coords.map (fun c => nearest data.yAxis c.2)).get ⟨a, by omega⟩ =
        (coords.map (fun c => nearest data.yAxis c.2)).get ⟨b, by omega⟩ →
      False := by
    intro a b ha hb2 hab heq
    have hdisj := hpair ⟨a, by omega⟩ ⟨b, by omega⟩ (by exact hab)
    have hx0 : (coords.map (fun c => nearest data.xAxis c.1)).get ⟨0, by omega⟩ ∈
        coords.map (fun c => nearest data.xAxis c.1) := List.get_mem _ 0 _
    have hmem1 :
        (((coords.map (fun c => nearest data.xAxis c.1)).get ⟨0, by omega⟩ : Int),
         (coords.map (fun c => nearest data.yAxis c.2)).get ⟨a, by omega⟩, b0) ∈
        (coords.map (fun c => nearest data.xAxis c.1)).map
          (fun x => (x, (coords.map (fun c => nearest data.yAxis c.2)).get ⟨a, by omega⟩, b0)) :=
      List.mem_map_of_mem _ hx0
    have hmem2 :
        (((coords.map (fun c => nearest data.xAxis c.1)).get ⟨0, by omega⟩ : Int),
         (coords.map (fun c => nearest data.yAxis c.2)).get ⟨a, by omega⟩, b0) ∈
        (coords.map (fun c => nearest data.xAxis c.1)).map
          (fun x => (x, (coords.map (fun c => nearest data.yAxis c.2)).get ⟨b, by omega⟩, b0)) := by
      rw [← heq]
      exact List.mem_map_of_mem _ hx0
    exact hdisj hmem1 hmem2
  have hgety : ∀ (k : Nat) (hk : k < coords.length),
      (coords.map (fun c => nearest data.yAxis c.2)).get ⟨k, by omega⟩ =
        nearest data.yAxis (coords[k]).2 := by
    intro k hk
    simp
  rcases Nat.lt_or_ge i j with hlt | hge
  · exact key i j hi hj hlt (by rw [hgety i hi, hgety j hj]; exact hye)
  · have hlt2 : j < i := by omega
    exact key j i hj hi hlt2 (by rw [hgety j hj, hgety i hi]; exact hye.symm)

/-- When a stack is accepted its band axis is nonempty. -/
theorem stackChecked_ok_bands (env : SamplerEnv) (signed : List Nat)
    (bands : List String) (grid : RasterGrid)
    (h : stackChecked env signed bands = .ok grid) : grid.bandAxis ≠ [] := by
  unfold stackChecked at h
  cases hs : env.stack signed bands with
  | error e => rw [hs] at h; simp at h
  | ok d =>
      rw [hs] at h
      dsimp only at h
      split at h
      · simp at h
      · simp only [Except.ok.injEq] at h
        subst h
        rename_i hcond
        intro hnil
        exact hcond (Or.inr (by rw [hnil]; rfl))

/-- C6 amended: when the catalog search finds items, the stack is
accepted, both coordinate axes are nonempty, and two input points in
distinct positions share the same nearest cell — the same nearest x and
nearest y coordinate — extract_satellite_features raises the pivot
duplicate-entries ValueError instead of returning a table with a
collapsed row count. -/
theorem C6_same_cell_pivot_error (env : SamplerEnv) (locs : List (Int × Int))
    (bandsOpt : Option (List String)) (grid : RasterGrid)
    (hitems : env.searchItems ≠ [])
    (hstack : stackChecked env (env.searchItems.map env.sign)
        (bandsOpt.getD ["B02", "B03", "B04", "B08"]) = .ok grid)
    (hx : grid.xAxis ≠ []) (hy : grid.yAxis ≠ [])
    (i j : Nat) (hi : i < locs.length) (hj : j < locs.length) (hij : i ≠ j)
    (hcellx : nearest grid.xAxis (projectPoint env (locs[i])).1 =
              nearest grid.xAxis (projectPoint env (locs[j])).1)
    (hcelly : nearest grid.yAxis (projectPoint env (locs[i])).2 =
              nearest grid.yAxis (projectPoint env (locs[j])).2) :
    extract_satellite_features env locs bandsOpt =
      .error ("Index contains duplicate entries, cannot reshape") := by
  have hfalse : env.searchItems.isEmpty = false := by
    cases hsi : env.searchItems with
    | nil => exact absurd hsi hitems
    | cons a as => rfl
  have hxe : grid.xAxis.isEmpty = false := by
    cases hxx : grid.xAxis with
    | nil => exact absurd hxx hx
    | cons a as => rfl
  have hye2 : grid.yAxis.isEmpty = false := by
    cases hyy : grid.yAxis with
    | nil => exact absurd hyy hy
    | cons a as => rfl
  have hilen : i < ((locs.map (fun p => (p.2, p.1))).map env.reproject).length := by
    simpa using hi
  have hjlen : j < ((locs.map (fun p => (p.2, p.1))).map env.reproject).length := by
    simpa using hj
  have hci : ∀ (k : Nat) (hk : k < locs.length)
      (hk2 : k < ((locs.map (fun p => (p.2, p.1))).map env.reproject).length),
      ((locs.map (fun p => (p.2, p.1))).map env.reproject)[k] =
        projectPoint env (locs[k]) := by
    intro k hk hk2
    simp [projectPoint]
  have hnodup := sampleLong_keys_not_nodup grid
    ((locs.map (fun p => (p.2, p.1))).map env.reproject)
    (stackChecked_ok_bands env (env.searchItems.map env.sign)
      (bandsOpt.getD ["B02", "B03", "B04", "B08"]) grid hstack)
    (by simpa using Nat.lt_of_le_of_lt (Nat.zero_le i) hi)
    i j hilen hjlen hij
    (by rw [hci i hi hilen, hci j hj hjlen]; exact hcelly)
  simp only [extract_satellite_features]
  rw [if_neg (by simp [hfalse])]
  rw [hstack]
  dsimp only
  rw [if_neg (by simp [hxe, hye2])]
  rw [pivotTable_dup _ hnodup]

theorem C6_same_cell_pivot_error_witness :
    (wEnvOneCell.searchItems ≠ [] ∧
     stackChecked wEnvOneCell (wEnvOneCell.searchItems.map wEnvOneCell.sign)
        ((some ["B02"]).getD ["B02", "B03", "B04", "B08"]) = .ok wGridOne ∧
     wGridOne.xAxis ≠ [] ∧ wGridOne.yAxis ≠ [] ∧
     0 < wLocsSame.length ∧ 1 < wLocsSame.length ∧ (0 : Nat) ≠ 1 ∧
     nearest wGridOne.xAxis (projectPoint wEnvOneCell (wLocsSame[0])).1 =
       nearest wGridOne.xAxis (projectPoint wEnvOneCell (wLocsSame[1])).1 ∧
     nearest wGridOne.yAxis (projectPoint wEnvOneCell (wLocsSame[0])).2 =
       nearest wGridOne.yAxis (projectPoint wEnvOneCell (wLocsSame[1])).2) ∧
    extract_satellite_features wEnvOneCell wLocsSame (some ["B02"]) =
      .error ("Index contains duplicate entries, cannot reshape") :=
  ⟨⟨by decide, rfl, by decide, by decide, by decide, by decide, by decide,
    by decide, by decide⟩,
   C6_same_cell_pivot_error wEnvOneCell wLocsSame (some ["B02"]) wGridOne
     (by decide) rfl (by decide) (by decide) 0 1 (by decide) (by decide)
     (by decide) (by decide) (by decide)⟩

/-- C6 counterexample: two distinct input points whose nearest cell is
the same single cell make the sampler raise the duplicate-entries
ValueError of the pivot; no table with a collapsed row count is
returned, refuting silent collapse without an exception. -/
theorem C6_same_cell_raises_counterexample :
    wLocsSame.length = 2 ∧ ((0, 0) : Int × Int) ≠ (5, 5) ∧
    extract_satellite_features wEnvOneCell wLocsSame (some ["B02"]) =
      .error ("Index contains duplicate entries, cannot reshape") :=
  ⟨rfl, by decide, rfl⟩

end UHI
